import Mathlib

/-!
Shallow embedding of the pulse-smoketests harness core: the smoke-test
orchestrator, report aggregator, notification service and Pulse API
facade, translated from the TypeScript sources
(`src/smoke-tests/index.ts`, `src/services/notifications.ts`,
`src/services/pulse-api.ts`, `src/config/index.ts`).

Effects are made explicit: the millisecond clock (`Date.now()`) and the
ISO timestamp (`new Date().toISOString()`) are passed as arguments,
thrown JavaScript exceptions are `Except`/an explicit outcome type, and
the external collaborators (HTTP facade, fixture store, webhook sinks)
are parameters describing the observable behaviour of one call.
-/

namespace PulseSmoke

/-- Result record for one executed probe, from the `TestResult`
interface of `src/smoke-tests/index.ts`.  The `details` payload is an
untyped informational blob in the source (`details?: any`); it is
modelled as an opaque optional string and never drives pass/fail
decisions. -/
structure TestResult where
  testName : String
  success : Bool
  duration : Nat
  error : Option String := none
  details : Option String := none
deriving DecidableEq

/-- JavaScript number as it flows through `generateReport`'s
success-rate expression: a finite value, `NaN`, or `Infinity`
(division of a nonzero value by zero). -/
inductive JSNum where
  | num (q : ℚ)
  | nan
  | inf
deriving DecidableEq

/-- JavaScript division of two nonnegative integers coerced to
numbers: `0 / 0` is `NaN`, `p / 0` with `p > 0` is `Infinity`,
otherwise the exact quotient. -/
def jsDivNat (a b : Nat) : JSNum :=
  if b = 0 then (if a = 0 then JSNum.nan else JSNum.inf)
  else JSNum.num ((a : ℚ) / (b : ℚ))

/-- JavaScript multiplication of a number by a positive integer
constant (the `* 100` step); `NaN` and `Infinity` are absorbing. -/
def jsMulNat (x : JSNum) (k : Nat) : JSNum :=
  match x with
  | JSNum.num q => JSNum.num (q * (k : ℚ))
  | JSNum.nan => JSNum.nan
  | JSNum.inf => if k = 0 then JSNum.nan else JSNum.inf

/-- Two-digit zero padding for the fractional part of `toFixed(2)`. -/
def pad2 (n : Nat) : String :=
  if n < 10 then "0" ++ toString n else toString n

/-- JavaScript `x.toFixed(2)` restricted to the nonnegative values this
program produces: `NaN` prints as "NaN", `Infinity` as "Infinity", and
a finite value is rounded to two decimal places (half up). -/
def toFixed2 (x : JSNum) : String :=
  match x with
  | JSNum.nan => "NaN"
  | JSNum.inf => "Infinity"
  | JSNum.num q =>
      let m : Int := ⌊q * 100 + 1 / 2⌋
      toString (m / 100) ++ "." ++ pad2 ((m % 100).toNat)

/-- Aggregate report shape returned by
`SmokeTestRunner.generateReport`. -/
structure Report where
  timestamp : String
  totalTests : Nat
  passedTests : Nat
  failedTests : Nat
  hasFailures : Bool
  successRate : String
  totalDuration : String
  results : List TestResult
  failures : List TestResult
deriving DecidableEq

/-- Embedding of `SmokeTestRunner.generateReport`
(`src/smoke-tests/index.ts` lines 274-292).  The source reads the
clock (`new Date().toISOString()`) for the `timestamp` field; that
read is the explicit `nowISO` argument.  `successRate` is the string
`(passedTests / totalTests * 100).toFixed(2) + "%"` under JavaScript
number semantics, with no guard for an empty result list. -/
def generateReport (results : List TestResult) (nowISO : String) : Report :=
  let totalTests := results.length
  let passedTests := (results.filter (fun r => r.success)).length
  let failedTests := totalTests - passedTests
  { timestamp := nowISO
    totalTests := totalTests
    passedTests := passedTests
    failedTests := failedTests
    hasFailures := decide (0 < failedTests)
    successRate := toFixed2 (jsMulNat (jsDivNat passedTests totalTests) 100) ++ "%"
    totalDuration := toString (results.foldl (fun sum r => sum + r.duration) 0) ++ "ms"
    results := results
    failures := results.filter (fun r => !r.success) }

/-- Behaviour of one probe body inside its failure boundary: either it
runs to completion and pushes the given result, or it throws with a
message. -/
inductive ProbeOutcome where
  | ok (r : TestResult)
  | throws (msg : String)
deriving DecidableEq

/-- One probe of the fixed sequence, abstracted over its body's
behaviour.  `catchDuration` is the `Date.now() - startTime` value the
catch branch would record when the body throws. -/
structure Probe where
  name : String
  run : ProbeOutcome
  catchDuration : Nat
deriving DecidableEq

/-- Failure boundary shared by every `private async testX` method of
`SmokeTestRunner`: the body's result is pushed on success, and a thrown
error is caught and converted into a single failed `TestResult` named
for the probe, carrying the caught message. -/
def runProbe (p : Probe) : TestResult :=
  match p.run with
  | ProbeOutcome.ok r => r
  | ProbeOutcome.throws m =>
      { testName := p.name
        success := false
        duration := p.catchDuration
        error := some m }

/-- Embedding of the probe-sequencing phase of
`SmokeTestRunner.runAllTests` (`src/smoke-tests/index.ts` lines
18-47): the probes run one at a time in order, each inside its own
failure boundary, every invocation appends exactly one result, and the
accumulated list is reduced by `generateReport`. -/
def runAllTests (probes : List Probe) (nowISO : String) : Report :=
  generateReport (probes.map runProbe) nowISO

/-- Settlement of the `runAllTests` promise as observed by the entry
block: either it resolves, or it rejects with an error message. -/
inductive Settlement where
  | resolved
  | rejected (msg : String)
deriving DecidableEq

/-- Outcome of one `runAllTests()` invocation as a whole
(`src/smoke-tests/index.ts` lines 21-52).  `fatal` is `some msg` when
the try block (probes, report generation, failure notification) throws
out of every probe boundary; in that case control reaches the catch
branch, which awaits `sendCriticalAlert`, so the promise settles the
way that awaited call settles.  When nothing escapes the try block the
promise resolves. -/
def runAllTestsSettlement (fatal : Option String)
    (criticalAlert : Settlement) : Settlement :=
  match fatal with
  | none => Settlement.resolved
  | some _ => criticalAlert

/-- Entry block of `src/smoke-tests/index.ts` (lines 296-307):
`runner.runAllTests().then(() => process.exit(0)).catch(() =>
process.exit(1))`. -/
def entryExitCode (s : Settlement) : Nat :=
  match s with
  | Settlement.resolved => 0
  | Settlement.rejected _ => 1

/-- Process exit code of one direct invocation, as a function of the
fatal-error outcome of the try block and of the settlement of the
critical-alert delivery attempted by the catch branch. -/
def processExitCode (fatal : Option String)
    (criticalAlert : Settlement) : Nat :=
  entryExitCode (runAllTestsSettlement fatal criticalAlert)

/-- Notification-relevant slice of the environment configuration
(`src/config/index.ts`): per-channel enable flags and webhook URLs.
An absent URL models an unset optional environment variable; the
source also treats an empty string as falsy. -/
structure NotifConfig where
  enableSlackNotifications : Bool
  slackWebhookUrl : Option String
  enableDiscordNotifications : Bool
  discordWebhookUrl : Option String
deriving DecidableEq

/-- One webhook delivery as observed by a sink: the URL posted to and
the human-readable message carried by the payload. -/
structure WebhookPost where
  url : String
  text : String
deriving DecidableEq

/-- Truthiness of an optional string under JavaScript coercion:
`undefined` and the empty string are falsy. -/
def truthy (s : Option String) : Bool :=
  match s with
  | none => false
  | some str => !(str == "")

/-- Embedding of `NotificationService.sendSlackNotification`
(`src/services/notifications.ts` lines 6-28): when the Slack channel
is disabled or unconfigured the method returns without posting
(`none`); otherwise it posts the message to the configured webhook.
Delivery errors are caught and logged, so the method never throws. -/
def sendSlackNotification (cfg : NotifConfig) (message : String) :
    Option WebhookPost :=
  if !cfg.enableSlackNotifications || !truthy cfg.slackWebhookUrl then none
  else
    match cfg.slackWebhookUrl with
    | some url => some { url := url, text := message }
    | none => none

/-- Embedding of `NotificationService.sendDiscordNotification`
(`src/services/notifications.ts` lines 30-52), with the same guard
structure as the Slack path. -/
def sendDiscordNotification (cfg : NotifConfig) (message : String) :
    Option WebhookPost :=
  if !cfg.enableDiscordNotifications || !truthy cfg.discordWebhookUrl then none
  else
    match cfg.discordWebhookUrl with
    | some url => some { url := url, text := message }
    | none => none

/-- Embedding of `NotificationService.sendCriticalAlert`
(`src/services/notifications.ts` lines 75-87): prepends the critical
marker to the message and attempts delivery on both channels through
the ordinary per-channel methods.  Returns the pair of observed
deliveries (Slack, Discord). -/
def sendCriticalAlert (cfg : NotifConfig) (message : String) :
    Option WebhookPost × Option WebhookPost :=
  let alertMessage := "🔥 CRITICAL: " ++ message
  (sendSlackNotification cfg alertMessage,
   sendDiscordNotification cfg alertMessage)

/-- Search request body, from the `SearchRequest` interface of
`src/services/pulse-api.ts`. -/
structure SearchRequest where
  query : String
  area : Option String := none
  region : Option String := none
  country : Option String := none
  timeline : Option String := none
  category : Option String := none
  enableFallbacks : Option Bool := none
  maxFallbacks : Option Nat := none
  deviceId : Option String := none
  buttonClickCount : Option String := none
deriving DecidableEq

/-- Timing breakdown of a `SearchResponse`; `total_ms` is an integer
because the facade's error branch computes it by subtracting two clock
readings. -/
structure SearchTiming where
  primary_ms : Option Nat := none
  fallback_ms : Option Nat := none
  total_ms : Int
deriving DecidableEq

/-- Metadata flags of a `SearchResponse`. -/
structure SearchMeta where
  cache_hit : Option Bool := none
  original_count : Option Nat := none
  flyer_count : Option Nat := none
  total_items : Option Nat := none
  session_filtered : Option Bool := none
deriving DecidableEq

/-- Typed API response, from the `SearchResponse` interface of
`src/services/pulse-api.ts`.  Result items are opaque to the harness
beyond their count, so they are modelled as strings. -/
structure SearchResponse where
  success : Bool
  data : List String
  source : String
  strategy : String
  originalStrategy : Option String := none
  fallbackUsed : Option String := none
  fallbackChain : Option (List String) := none
  timing : Option SearchTiming := none
  meta : Option SearchMeta := none
  timestamp : String
  error : Option String := none
deriving DecidableEq

/-- Observable outcome of the one `axios` POST issued by
`searchWithStrategy`: a decoded 2xx body, an axios error (transport
failure, timeout, or a non-2xx status, optionally carrying a
server-provided `error` field in the response body) with its message,
or a non-axios exception. -/
inductive HttpOutcome where
  | ok (resp : SearchResponse)
  | axiosError (serverError : Option String) (message : String)
  | otherError (message : String)
deriving DecidableEq

/-- JavaScript `a || b` on `error.response?.data?.error ||
error.message`: an absent or empty server-provided error falls back to
the axios message. -/
def jsOrString (a : Option String) (b : String) : String :=
  match a with
  | some s => if s = "" then b else s
  | none => b

/-- Embedding of `PulseAPIService.searchWithStrategy`
(`src/services/pulse-api.ts` lines 323-364).  The clock reads of the
catch branch's `Date.now() - Date.now()` are the explicit `tsA` and
`tsB` arguments (read left to right); `nowISO` is the
`new Date().toISOString()` read.  An axios error is normalized into a
failed `SearchResponse`; any other exception is rethrown. -/
def searchWithStrategy (strategy : String) (outcome : HttpOutcome)
    (tsA tsB : Nat) (nowISO : String) : Except String SearchResponse :=
  match outcome with
  | HttpOutcome.ok resp => Except.ok resp
  | HttpOutcome.axiosError serverError message =>
      Except.ok
        { success := false
          data := []
          source := strategy
          strategy := strategy
          timestamp := nowISO
          error := some (jsOrString serverError message)
          timing := some { total_ms := (tsA : Int) - (tsB : Int) } }
  | HttpOutcome.otherError message => Except.error message

/-- Observable outcome of the `axios` GET issued by `healthCheck`: the
server responded with some HTTP status, or the transport failed (DNS,
TCP, or expiry of the 5000 ms timeout configured on the call). -/
inductive GetOutcome where
  | response (status : Nat)
  | transportError (msg : String)
deriving DecidableEq

/-- Axios settlement of the health GET under the default
`validateStatus` (fulfil on 2xx, reject otherwise): a non-2xx status
becomes a thrown error just like a transport failure. -/
def axiosGetHealth (o : GetOutcome) : Except String Nat :=
  match o with
  | GetOutcome.response status =>
      if 200 ≤ status ∧ status < 300 then Except.ok status
      else Except.error ("Request failed with status code " ++ toString status)
  | GetOutcome.transportError msg => Except.error msg

/-- Embedding of `PulseAPIService.healthCheck`
(`src/services/pulse-api.ts` lines 390-400): returns whether the
fulfilled response carries status exactly 200, and catches every
rejection into `false`. -/
def healthCheck (o : GetOutcome) : Bool :=
  match axiosGetHealth o with
  | Except.ok status => status == 200
  | Except.error _ => false

/-- Fixed list of per-strategy latency expectations iterated by
`SmokeTestRunner.testPerformance` (`src/smoke-tests/index.ts` lines
234-238). -/
def performanceTests : List (String × Nat) :=
  [("query_cache", 500), ("rag_cache", 1000), ("rag_vector", 3000)]

/-- Loop body of `SmokeTestRunner.testPerformance` for one
`(strategy, expectedMs)` pair (`src/smoke-tests/index.ts` lines
240-262): `respSuccess` is the `success` flag of the facade response
and `duration` the wall-clock `Date.now() - startTime` measurement
around the call.  The probe passes when the response succeeded and the
measured duration does not exceed the expectation (inclusive); on a
breach the error message states the measured and expected values. -/
def perfResult (strategy : String) (expectedMs : Nat) (respSuccess : Bool)
    (duration : Nat) : TestResult :=
  let withinExpected := decide (duration ≤ expectedMs)
  { testName := strategy ++ " Performance"
    success := respSuccess && withinExpected
    duration := duration
    details := some ("expectedMs=" ++ toString expectedMs ++ ";actualMs="
      ++ toString duration ++ ";withinExpected=" ++ toString withinExpected)
    error :=
      if withinExpected then none
      else some ("Exceeded expected time: " ++ toString duration ++ "ms > "
        ++ toString expectedMs ++ "ms") }

/-- Recorded result body of a `query_cache` fixture row, reached in the
source as `entry.response`, itself holding an optional `data` array
(`entry.response?.data`).  Items are opaque to the harness. -/
structure ResponseBody where
  data : Option (List String)
deriving DecidableEq

/-- Fixture row of the `query_cache` table, from the `QueryCacheEntry`
interface of `src/services/supabase.ts`.  `expire_at` is an epoch
millisecond timestamp. -/
structure CacheEntry where
  id : String
  prompt : String
  area : String
  region : Option String := none
  country : Option String := none
  timeline : Option String := none
  button_click_count : Option String := none
  response : Option ResponseBody := none
  expire_at : Nat
deriving DecidableEq

/-- Fixture-selection predicate of `testQueryCacheStrategy`
(`src/smoke-tests/index.ts` lines 100-103):
`entry.response?.data?.length > 0 && new Date(entry.expire_at) > new
Date()`.  An absent `response` or `data` makes the comparison with 0
false under JavaScript semantics. -/
def isValidEntry (now : Nat) (e : CacheEntry) : Bool :=
  (match e.response with
   | none => false
   | some body =>
       match body.data with
       | none => false
       | some items => decide (0 < items.length))
  && decide (now < e.expire_at)

/-- JavaScript `x || undefined` on an optional string field: an empty
string collapses to `undefined`. -/
def jsOrUndefined (a : Option String) : Option String :=
  match a with
  | some s => if s = "" then none else some s
  | none => none

/-- Test-location defaults of the environment configuration
(`src/config/index.ts`). -/
structure TestConfig where
  TEST_AREA : String
  TEST_REGION : String
  TEST_COUNTRY : String
  TEST_TIMELINE : String
deriving DecidableEq

/-- Request built by `testQueryCacheStrategy` from the selected
fixture (`src/smoke-tests/index.ts` lines 116-124). -/
def queryCacheRequest (e : CacheEntry) : SearchRequest :=
  { query := e.prompt
    area := some e.area
    region := jsOrUndefined e.region
    country := jsOrUndefined e.country
    timeline := jsOrUndefined e.timeline
    buttonClickCount := jsOrUndefined e.button_click_count
    enableFallbacks := some false }

/-- Embedding of `SmokeTestRunner.testQueryCacheStrategy`
(`src/smoke-tests/index.ts` lines 95-149).  `fetch` is the settlement
of the fixture-store query, `facade` the settlement of one
`pulseAPIService.testQueryCache` call as a function of the request,
and `dur` the wall-clock measurement recorded in the pushed result.
The returned flag reports whether the facade was invoked. -/
def testQueryCacheStrategy (fetch : Except String (List CacheEntry))
    (now : Nat) (facade : SearchRequest → Except String SearchResponse)
    (dur : Nat) : TestResult × Bool :=
  match fetch with
  | Except.error msg =>
      ({ testName := "Query Cache Strategy", success := false,
         duration := dur, error := some msg }, false)
  | Except.ok cacheEntries =>
      match cacheEntries.find? (isValidEntry now) with
      | none =>
          ({ testName := "Query Cache Strategy", success := false,
             duration := dur,
             error := some "No valid cache entries found for testing" }, false)
      | some validEntry =>
          match facade (queryCacheRequest validEntry) with
          | Except.error msg =>
              ({ testName := "Query Cache Strategy", success := false,
                 duration := dur, error := some msg }, true)
          | Except.ok response =>
              ({ testName := "Query Cache Strategy"
                 success := response.success
                 duration := dur
                 details := some ("itemCount=" ++ toString response.data.length
                   ++ ";source=" ++ response.source
                   ++ ";testedQuery=" ++ validEntry.prompt)
                 error := response.error }, true)

/-- JavaScript `a || b` between two optional strings, as in
`response.error || (response.data.length === 0 ? 'No data returned' :
undefined)`. -/
def jsOrOption (a b : Option String) : Option String :=
  match a with
  | some s => if s = "" then b else some s
  | none => b

/-- Request built by `testRagVectorStrategy`
(`src/smoke-tests/index.ts` lines 160-168): each field falls back to
the configured default (or to the hard-coded query) when the fetched
fixture is absent or the field is falsy. -/
def ragVectorRequest (cacheEntry : Option CacheEntry) (cfg : TestConfig) :
    SearchRequest :=
  { query := jsOrString (cacheEntry.map (fun e => e.prompt)) "pizza deals today"
    area := some (jsOrString (cacheEntry.map (fun e => e.area)) cfg.TEST_AREA)
    region := some (jsOrString (cacheEntry.bind (fun e => e.region)) cfg.TEST_REGION)
    country := some (jsOrString (cacheEntry.bind (fun e => e.country)) cfg.TEST_COUNTRY)
    timeline := some (jsOrString (cacheEntry.bind (fun e => e.timeline)) cfg.TEST_TIMELINE)
    buttonClickCount := jsOrUndefined (cacheEntry.bind (fun e => e.button_click_count))
    enableFallbacks := some false }

/-- Embedding of `SmokeTestRunner.testRagVectorStrategy`
(`src/smoke-tests/index.ts` lines 151-191).  `fetch` is the settlement
of the fixture-store lookup (which may legitimately return no row),
`facade` the settlement of one `pulseAPIService.testRagVector` call,
and `dur` the recorded wall-clock measurement.  The pushed result
mirrors `response.success` and soft-flags an empty data array through
the `error` field only. -/
def testRagVectorStrategy (fetch : Except String (Option CacheEntry))
    (cfg : TestConfig) (facade : SearchRequest → Except String SearchResponse)
    (dur : Nat) : TestResult :=
  match fetch with
  | Except.error msg =>
      { testName := "RAG Vector Strategy", success := false,
        duration := dur, error := some msg }
  | Except.ok cacheEntry =>
      match facade (ragVectorRequest cacheEntry cfg) with
      | Except.error msg =>
          { testName := "RAG Vector Strategy", success := false,
            duration := dur, error := some msg }
      | Except.ok response =>
          { testName := "RAG Vector Strategy"
            success := response.success
            duration := dur
            details := some ("itemCount=" ++ toString response.data.length
              ++ ";source=" ++ response.source)
            error := jsOrOption response.error
              (if response.data.length = 0 then some "No data returned" else none) }

/-- Probes whose bodies complete with a passing result contribute no
entry to the failure sublist. -/
lemma filter_not_success_of_all_ok (l : List Probe)
    (h : ∀ q ∈ l, ∃ r, q.run = ProbeOutcome.ok r ∧ r.success = true) :
    (l.map runProbe).filter (fun r => !r.success) = [] := by
  refine List.filter_eq_nil_iff.mpr ?_
  intro a ha
  rcases List.mem_map.mp ha with ⟨q, hq, rfl⟩
  rcases h q hq with ⟨r, hrun, hsucc⟩
  simp [runProbe, hrun, hsucc]

/-- C1: a probe that raises never terminates the run.  With one
throwing probe between any two stretches of succeeding probes, the run
reaches every probe, the report counts all of them (`total == N`), and
the failure sublist is exactly the single result synthesized for the
throwing probe, named for it and carrying the caught message. -/
theorem runAllTests_isolates_throwing_probe
    (pre post : List Probe) (p : Probe) (m : String) (t : String)
    (hp : p.run = ProbeOutcome.throws m)
    (hpre : ∀ q ∈ pre, ∃ r, q.run = ProbeOutcome.ok r ∧ r.success = true)
    (hpost : ∀ q ∈ post, ∃ r, q.run = ProbeOutcome.ok r ∧ r.success = true) :
    (runAllTests (pre ++ p :: post) t).totalTests = (pre ++ p :: post).length
    ∧ (runAllTests (pre ++ p :: post) t).failures
      = [{ testName := p.name, success := false, duration := p.catchDuration,
           error := some m }] := by
  constructor
  · simp [runAllTests, generateReport]
  · show (((pre ++ p :: post).map runProbe).filter (fun r => !r.success)) = _
    rw [List.map_append, List.map_cons, List.filter_append, List.filter_cons,
      filter_not_success_of_all_ok pre hpre, filter_not_success_of_all_ok post hpost]
    simp [runProbe, hp]

/-- Concrete passing health probe used to instantiate the
orchestrator theorems. -/
def probeHealthOk : Probe :=
  { name := "API Health Check"
    run := ProbeOutcome.ok
      { testName := "API Health Check", success := true, duration := 12 }
    catchDuration := 12 }

/-- Concrete throwing connectivity probe used to instantiate the
orchestrator theorems. -/
def probeSupabaseThrows : Probe :=
  { name := "Supabase Connection"
    run := ProbeOutcome.throws "connect ECONNREFUSED"
    catchDuration := 7 }

/-- Concrete passing functional probe used to instantiate the
orchestrator theorems. -/
def probeRagVectorOk : Probe :=
  { name := "RAG Vector Strategy"
    run := ProbeOutcome.ok
      { testName := "RAG Vector Strategy", success := true, duration := 90 }
    catchDuration := 90 }

/-- C1 witness: a three-probe run whose middle probe throws yields a
report with total 3 and exactly one failure, named for the middle
probe. -/
theorem runAllTests_isolates_throwing_probe_applied :
    (runAllTests ([probeHealthOk] ++ probeSupabaseThrows :: [probeRagVectorOk])
        "2026-01-01T00:00:00.000Z").totalTests
      = ([probeHealthOk] ++ probeSupabaseThrows :: [probeRagVectorOk]).length
    ∧ (runAllTests ([probeHealthOk] ++ probeSupabaseThrows :: [probeRagVectorOk])
        "2026-01-01T00:00:00.000Z").failures
      = [{ testName := "Supabase Connection", success := false, duration := 7,
           error := some "connect ECONNREFUSED" }] :=
  runAllTests_isolates_throwing_probe [probeHealthOk] [probeRagVectorOk]
    probeSupabaseThrows "connect ECONNREFUSED" "2026-01-01T00:00:00.000Z" rfl
    (by
      intro q hq
      simp only [List.mem_singleton] at hq
      subst hq
      exact ⟨_, rfl, rfl⟩)
    (by
      intro q hq
      simp only [List.mem_singleton] at hq
      subst hq
      exact ⟨_, rfl, rfl⟩)

/-- C2 counterexample: on an empty result list `generateReport` does
not report a success rate of 0; the JavaScript `0 / 0` produces `NaN`,
which propagates into the report as the string "NaN%". -/
theorem generateReport_empty_successRate_cex :
    (generateReport [] "2026-01-01T00:00:00.000Z").successRate = "NaN%"
    ∧ (generateReport [] "2026-01-01T00:00:00.000Z").successRate ≠ "0.00%"
    ∧ (generateReport [] "2026-01-01T00:00:00.000Z").successRate ≠ "0%" := by
  refine ⟨rfl, ?_, ?_⟩ <;> decide

/-- C2 amended: for every run whose result list is empty (total == 0),
`generateReport` sets `successRate` to the string "NaN%" — the
division-by-zero `NaN` value does propagate into the report (though no
exception is raised). -/
theorem generateReport_empty_successRate_NaN
    (results : List TestResult) (t : String) (h : results.length = 0) :
    (generateReport results t).successRate = "NaN%" := by
  rw [List.length_eq_zero.mp h]
  rfl

/-- C2 amended witness: the empty run evaluated concretely. -/
theorem generateReport_empty_successRate_NaN_applied :
    (generateReport [] "2026-01-01T00:00:00.000Z").successRate = "NaN%" :=
  generateReport_empty_successRate_NaN [] "2026-01-01T00:00:00.000Z" rfl

/-- C6 counterexample: `generateReport` is not a pure function of the
result list alone — two calls on the same (empty) list at different
clock instants yield reports that differ in the `timestamp` field. -/
theorem generateReport_not_pure_cex :
    generateReport [] "2026-01-01T00:00:00.000Z"
      ≠ generateReport [] "2026-01-01T00:00:01.000Z" := by
  decide

/-- C6 amended: `generateReport` is a pure function of the result list
and the clock instant it embeds as `timestamp`; two calls on the same
immutable result list yield reports identical in every field except
`timestamp`. -/
theorem generateReport_pure_up_to_timestamp
    (results : List TestResult) (t1 t2 : String) :
    { generateReport results t1 with timestamp := t2 }
      = generateReport results t2 := by
  rfl

/-- C3: an axios failure of the underlying HTTP call (transport
failure or non-2xx status) is normalized by `searchWithStrategy` into
a returned — never thrown — `SearchResponse` with `success = false`,
empty `data`, `source` and `strategy` both the requested strategy, a
non-empty error string, and `timing.total_ms = 0`.  The two adjacent
`Date.now()` reads of the catch branch are instantiated with the same
millisecond tick `ts`; the hypothesis reflects that axios error
messages are never empty. -/
theorem searchWithStrategy_normalizes_axios_error
    (strategy : String) (serverError : Option String) (message : String)
    (ts : Nat) (nowISO : String) (hmsg : message ≠ "") :
    ∃ r, searchWithStrategy strategy
        (HttpOutcome.axiosError serverError message) ts ts nowISO
        = Except.ok r
      ∧ r.success = false ∧ r.data = [] ∧ r.source = strategy
      ∧ r.strategy = strategy
      ∧ (∃ e, r.error = some e ∧ e ≠ "")
      ∧ r.timing = some { total_ms := 0 } := by
  refine ⟨_, rfl, rfl, rfl, rfl, rfl, ⟨jsOrString serverError message, rfl, ?_⟩, ?_⟩
  · cases serverError with
    | none => simpa [jsOrString] using hmsg
    | some s =>
        by_cases hs : s = "" <;> simp [jsOrString, hs, hmsg]
  · simp [sub_self]

/-- C3 witness: a simulated transport timeout against the
`query_cache` strategy, evaluated concretely. -/
theorem searchWithStrategy_normalizes_axios_error_applied :
    ∃ r, searchWithStrategy "query_cache"
        (HttpOutcome.axiosError none "timeout of 30000ms exceeded")
        1700000000000 1700000000000 "2026-01-01T00:00:00.000Z"
        = Except.ok r
      ∧ r.success = false ∧ r.data = [] ∧ r.source = "query_cache"
      ∧ r.strategy = "query_cache"
      ∧ (∃ e, r.error = some e ∧ e ≠ "")
      ∧ r.timing = some { total_ms := 0 } :=
  searchWithStrategy_normalizes_axios_error "query_cache" none
    "timeout of 30000ms exceeded" 1700000000000 "2026-01-01T00:00:00.000Z"
    (by decide)

/-- C4: the process exits with code 0 whenever the `runAllTests` try
block completes (no fatal error escaped any probe boundary), whatever
the individual probe results were; a non-zero exit can occur only when
the run aborted with a fatal error (and, in the source, additionally
only when the critical-alert delivery itself then rejected). -/
theorem processExitCode_zero_unless_aborted
    (fatal : Option String) (criticalAlert : Settlement) :
    (fatal = none → processExitCode fatal criticalAlert = 0)
    ∧ (processExitCode fatal criticalAlert ≠ 0 → ∃ m, fatal = some m) := by
  cases fatal with
  | none =>
      exact ⟨fun _ => rfl, fun h => absurd rfl h⟩
  | some m =>
      refine ⟨fun h => ?_, fun _ => ⟨m, rfl⟩⟩
      cases h

/-- C4 witness: a completed run exits 0, and a non-zero exit (aborted
run whose critical alert also rejected) indeed came from a fatal
error. -/
theorem processExitCode_zero_unless_aborted_applied :
    processExitCode none (Settlement.rejected "alert webhook 500") = 0
    ∧ ∃ m, (some "Failed to parse environment variables" : Option String)
        = some m :=
  ⟨(processExitCode_zero_unless_aborted none
      (Settlement.rejected "alert webhook 500")).1 rfl,
   (processExitCode_zero_unless_aborted
      (some "Failed to parse environment variables")
      (Settlement.rejected "alert webhook 500")).2 (by decide)⟩

/-- C5 counterexample: with both channels configured but their enable
flags off, a critical alert for a fatal abort is delivered to neither
channel — the critical path does not bypass the per-channel enable
flags. -/
theorem sendCriticalAlert_disabled_channels_cex :
    sendCriticalAlert
      { enableSlackNotifications := false
        slackWebhookUrl := some "https://hooks.slack.example/services/T000/B000"
        enableDiscordNotifications := false
        discordWebhookUrl := some "https://discord.example/api/webhooks/1/abc" }
      "Smoke tests failed to complete"
      = (none, none) := by
  decide

/-- C5 amended: the critical-alert path reuses the ordinary channel
methods on the marker-prefixed message, so it is delivered on a
channel only when that channel's enable flag (and webhook URL) permit
it; a disabled channel receives nothing even for a fatal abort. -/
theorem sendCriticalAlert_respects_channel_flags
    (cfg : NotifConfig) (message : String) :
    sendCriticalAlert cfg message
      = (sendSlackNotification cfg ("🔥 CRITICAL: " ++ message),
         sendDiscordNotification cfg ("🔥 CRITICAL: " ++ message))
    ∧ (cfg.enableSlackNotifications = false →
        (sendCriticalAlert cfg message).1 = none)
    ∧ (cfg.enableDiscordNotifications = false →
        (sendCriticalAlert cfg message).2 = none) := by
  refine ⟨rfl, fun hs => ?_, fun hd => ?_⟩
  · simp [sendCriticalAlert, sendSlackNotification, hs]
  · simp [sendCriticalAlert, sendDiscordNotification, hd]

/-- C5 amended witness: the disabled-channel clauses applied to a
concrete configuration. -/
theorem sendCriticalAlert_respects_channel_flags_applied :
    (sendCriticalAlert
      { enableSlackNotifications := false
        slackWebhookUrl := some "https://hooks.slack.example/services/T000/B000"
        enableDiscordNotifications := false
        discordWebhookUrl := some "https://discord.example/api/webhooks/1/abc" }
      "Smoke tests failed to complete").1 = none
    ∧ (sendCriticalAlert
      { enableSlackNotifications := false
        slackWebhookUrl := some "https://hooks.slack.example/services/T000/B000"
        enableDiscordNotifications := false
        discordWebhookUrl := some "https://discord.example/api/webhooks/1/abc" }
      "Smoke tests failed to complete").2 = none :=
  ⟨(sendCriticalAlert_respects_channel_flags _ _).2.1 rfl,
   (sendCriticalAlert_respects_channel_flags _ _).2.2 rfl⟩

/-- C10: `healthCheck` returns `true` exactly when the liveness GET
fulfilled with HTTP status 200; every other status (including other
2xx statuses such as 204, which axios fulfils but the comparison
rejects) and every transport error or timeout yields `false`, and the
catch block means the operation never raises. -/
theorem healthCheck_true_iff_status_200 (o : GetOutcome) :
    healthCheck o = true ↔ o = GetOutcome.response 200 := by
  cases o with
  | response status =>
      by_cases h : 200 ≤ status ∧ status < 300
      · simp [healthCheck, axiosGetHealth, h]
      · have h200 : status ≠ 200 := by omega
        simp [healthCheck, axiosGetHealth, h, h200]
  | transportError msg =>
      simp [healthCheck, axiosGetHealth]

/-- C7: for every pair of the performance probe's fixed list, with a
successful response, a measured duration exactly equal to the
expectation passes (the threshold is inclusive), while one more
millisecond fails with an error message containing both the measured
and the expected values. -/
theorem perfResult_inclusive_threshold :
    ∀ p ∈ performanceTests,
      (perfResult p.1 p.2 true p.2).success = true
      ∧ (perfResult p.1 p.2 true (p.2 + 1)).success = false
      ∧ ∃ e a b c, (perfResult p.1 p.2 true (p.2 + 1)).error = some e
          ∧ e = a ++ toString (p.2 + 1) ++ b ++ toString p.2 ++ c := by
  intro p hp
  simp only [performanceTests, List.mem_cons, List.mem_singleton,
    List.not_mem_nil, or_false] at hp
  rcases hp with rfl | rfl | rfl <;>
    exact ⟨rfl, rfl, _, "Exceeded expected time: ", "ms > ", "ms", rfl, rfl⟩

/-- C7 witness: the `query_cache` pair of the fixed list, evaluated at
its 500 ms boundary. -/
theorem perfResult_inclusive_threshold_applied :
    (perfResult "query_cache" 500 true 500).success = true
    ∧ (perfResult "query_cache" 500 true 501).success = false
    ∧ ∃ e a b c, (perfResult "query_cache" 500 true 501).error = some e
        ∧ e = a ++ toString 501 ++ b ++ toString 500 ++ c :=
  perfResult_inclusive_threshold ("query_cache", 500) (by decide)

/-- C8: when no fetched fixture is both unexpired and backed by a
non-empty recorded result set, the query-cache probe records a single
failed result whose error names the absence of a valid fixture, and
the facade is never invoked: the outcome reports no facade call and is
independent of the facade's behaviour. -/
theorem testQueryCacheStrategy_no_valid_fixture
    (cacheEntries : List CacheEntry) (now : Nat)
    (facade altFacade : SearchRequest → Except String SearchResponse)
    (dur : Nat)
    (h : ∀ e ∈ cacheEntries, isValidEntry now e = false) :
    testQueryCacheStrategy (Except.ok cacheEntries) now facade dur
      = ({ testName := "Query Cache Strategy", success := false,
           duration := dur,
           error := some "No valid cache entries found for testing" }, false)
    ∧ testQueryCacheStrategy (Except.ok cacheEntries) now facade dur
      = testQueryCacheStrategy (Except.ok cacheEntries) now altFacade dur := by
  have hfind : cacheEntries.find? (isValidEntry now) = none := by
    refine List.find?_eq_none.mpr ?_
    intro x hx
    simp [h x hx]
  constructor <;> simp [testQueryCacheStrategy, hfind]

/-- Concrete fixture whose recorded result set is non-empty but whose
expiry has passed, used to instantiate the query-cache probe
theorem. -/
def expiredFixture : CacheEntry :=
  { id := "e1"
    prompt := "pizza deals"
    area := "tampa-bay"
    response := some { data := some ["item1"] }
    expire_at := 1000 }

/-- C8 witness: with only an expired fixture available at clock 2000,
the probe fails with the descriptive error, does not call the facade,
and its outcome does not depend on the facade supplied. -/
theorem testQueryCacheStrategy_no_valid_fixture_applied :
    testQueryCacheStrategy (Except.ok [expiredFixture]) 2000
        (fun _ => Except.error "unreachable") 3
      = ({ testName := "Query Cache Strategy", success := false,
           duration := 3,
           error := some "No valid cache entries found for testing" }, false)
    ∧ testQueryCacheStrategy (Except.ok [expiredFixture]) 2000
        (fun _ => Except.error "unreachable") 3
      = testQueryCacheStrategy (Except.ok [expiredFixture]) 2000
        (fun _ => Except.error "other") 3 :=
  testQueryCacheStrategy_no_valid_fixture [expiredFixture] 2000
    (fun _ => Except.error "unreachable") (fun _ => Except.error "other") 3
    (by decide)

/-- Successful facade response with an empty data array, used to
instantiate the vector-strategy probe theorems. -/
def emptyVectorResponse : SearchResponse :=
  { success := true
    data := []
    source := "rag_vector"
    strategy := "rag_vector"
    timestamp := "2026-01-01T00:00:00.000Z" }

/-- Default test-location configuration values of
`src/config/index.ts`. -/
def defaultTestConfig : TestConfig :=
  { TEST_AREA := "tampa-bay"
    TEST_REGION := "FL"
    TEST_COUNTRY := "US"
    TEST_TIMELINE := "today" }

/-- C9 counterexample: on a successful response with an empty data
array, the vector-strategy probe does not flag the result as a
failure: the recorded result keeps `success = true` (only the `error`
string is set), and the report's failure sublist stays empty. -/
theorem testRagVectorStrategy_empty_data_cex :
    (testRagVectorStrategy (Except.ok none) defaultTestConfig
        (fun _ => Except.ok emptyVectorResponse) 80).success = true
    ∧ (testRagVectorStrategy (Except.ok none) defaultTestConfig
        (fun _ => Except.ok emptyVectorResponse) 80).error
      = some "No data returned"
    ∧ (generateReport
        [testRagVectorStrategy (Except.ok none) defaultTestConfig
          (fun _ => Except.ok emptyVectorResponse) 80]
        "2026-01-01T00:00:00.000Z").failures = [] := by
  exact ⟨rfl, rfl, rfl⟩

/-- C9 amended: when the facade call fulfils with `success = true`, an
empty data array and no server error, the vector-strategy probe only
soft-flags the condition: it records "No data returned" in the
result's `error` field while the result's `success` remains `true`
(the condition is not counted as a failure). -/
theorem testRagVectorStrategy_empty_data_soft_flag
    (fetched : Option CacheEntry) (cfg : TestConfig)
    (facade : SearchRequest → Except String SearchResponse) (dur : Nat)
    (resp : SearchResponse)
    (hcall : facade (ragVectorRequest fetched cfg) = Except.ok resp)
    (hsucc : resp.success = true) (hdata : resp.data = [])
    (herr : resp.error = none) :
    (testRagVectorStrategy (Except.ok fetched) cfg facade dur).success = true
    ∧ (testRagVectorStrategy (Except.ok fetched) cfg facade dur).error
      = some "No data returned" := by
  simp [testRagVectorStrategy, hcall, hsucc, hdata, herr, jsOrOption]

/-- C9 amended witness: the soft-flag behaviour evaluated on a
concrete empty successful response. -/
theorem testRagVectorStrategy_empty_data_soft_flag_applied :
    (testRagVectorStrategy (Except.ok none) defaultTestConfig
        (fun _ => Except.ok emptyVectorResponse) 80).success = true
    ∧ (testRagVectorStrategy (Except.ok none) defaultTestConfig
        (fun _ => Except.ok emptyVectorResponse) 80).error
      = some "No data returned" :=
  testRagVectorStrategy_empty_data_soft_flag none defaultTestConfig
    (fun _ => Except.ok emptyVectorResponse) 80 emptyVectorResponse
    rfl rfl rfl rfl

end PulseSmoke
